import Mathlib

/-!
A shallow embedding of the `cloudflare-webdav-rs` worker (src/lib.rs,
src/dav.rs, src/constant.rs): a WebDAV adapter over a flat key/value
object store.  The bucket is modelled as a list of stored objects in
backend listing order; each handler is a pure function from the request
data (path, relevant headers, body) and the bucket state to a response
and, for mutating handlers, the new bucket state.  Backend calls never
fail in the model; `Utc::now()` is threaded as an explicit `now : String`
parameter; backend-assigned etags and upload timestamps of freshly put
objects are abstracted as `""` (no claim observes them).
-/

namespace Webdav

/-- Rust `s.trim_matches('/')`: remove every leading and trailing `/`. -/
def trimSlashes (s : String) : String :=
  String.mk (((s.toList.dropWhile (· == '/')).reverse.dropWhile (· == '/')).reverse)

/-- Rust `s.trim_start_matches('/')`: remove every leading `/`. -/
def trimLeadSlashes (s : String) : String :=
  String.mk (s.toList.dropWhile (· == '/'))

/-- Rust `s.ends_with(c)` for a one-character pattern. -/
def strEndsWith (s : String) (c : Char) : Bool :=
  s.toList.getLast? == some c

/-- Rust `s.contains(c)` for a one-character pattern. -/
def strContainsChar (s : String) (c : Char) : Bool :=
  s.toList.any (fun d => d == c)

/-- Rust `s.split(c).next().unwrap()`: the part before the first
occurrence of `c` (the whole string when `c` is absent). -/
def firstSegment (s : String) (c : Char) : String :=
  String.mk (s.toList.takeWhile (fun d => d != c))

/-- Rust `&s[n..]` (the handlers slice only at character boundaries of
ASCII keys, so character indexing matches byte indexing). -/
def charDrop (s : String) (n : Nat) : String :=
  String.mk (s.toList.drop n)

/-- Rust `s.len()` (character count; coincides with the byte length on
the ASCII keys the slicing code assumes). -/
def strLen (s : String) : Nat :=
  s.toList.length

/-- Rust `s.starts_with(pfx)`, as the backend prefix filter. -/
def strStartsWith (s pfx : String) : Bool :=
  pfx.toList.isPrefixOf s.toList

/-- `HttpMetadata` of the worker crate, as consumed by `get_headers`
(src/lib.rs 323-347) and the DAV builder. -/
structure HttpMetadata where
  content_type : Option String := none
  content_disposition : Option String := none
  content_encoding : Option String := none
  content_language : Option String := none
  cache_control : Option String := none
  cache_expiry : Option Nat := none
  deriving Repr, DecidableEq

/-- One object stored in the bucket: key, content bytes, HTTP metadata,
custom metadata, etag and upload timestamp (the fields of the worker
`Object` the code reads: `key`, `size`, `etag`, `uploaded`,
`http_metadata`, `custom_metadata`, plus the body stream). -/
structure StoredObject where
  key : String
  value : List Nat
  httpMeta : HttpMetadata := {}
  customMeta : List (String × String) := []
  etag : String := ""
  uploaded : String := ""
  deriving Repr, DecidableEq

/-- The bucket state: the full object list in backend listing order. -/
abbrev Bucket := List StoredObject

/-- `bucket.head(key)` / `bucket.get(key)`: both resolve the key to the
stored object (head returns metadata only, get additionally the body;
the model keeps one lookup). -/
def lookupKey (bucket : Bucket) (k : String) : Option StoredObject :=
  List.find? (fun o => o.key == k) bucket

/-- `bucket.delete(key)`: remove the object stored at `key` (a no-op when
absent). -/
def deleteKey (bucket : Bucket) (k : String) : Bucket :=
  List.filter (fun o => o.key != k) bucket

/-- The object `bucket.put(key, data)` stores when the caller attaches no
metadata: content bytes only, no content type, no custom metadata. -/
def freshObject (k : String) (v : List Nat) : StoredObject :=
  { key := k, value := v }

/-- `bucket.put(key, data).execute()`: create or overwrite the object at
`key`. -/
def putObj (bucket : Bucket) (k : String) (v : List Nat) : Bucket :=
  deleteKey bucket k ++ [freshObject k v]

/-- `list_all_files` (src/lib.rs 38-59): the full listing under a prefix,
pagination flattened away; an empty prefix applies no prefix filter. -/
def list_all_files (bucket : Bucket) (pfx : String) : List StoredObject :=
  if pfx = "" then bucket
  else List.filter (fun o => strStartsWith o.key pfx) bucket

/-- Response body: empty (`Response::empty`), text, or a byte stream. -/
inductive RBody where
  | empty : RBody
  | text : String → RBody
  | bytes : List Nat → RBody
  deriving Repr, DecidableEq

/-- An HTTP response: status, headers in emission order, body. -/
structure Resp where
  status : Nat
  headers : List (String × String) := []
  body : RBody := .empty
  deriving Repr, DecidableEq

/-- `Response::error(msg, code)`. -/
def respError (msg : String) (code : Nat) : Resp :=
  { status := code, body := .text msg }

/-- `METHODS` (src/constant.rs): the advertised method list. -/
def METHODS : List String :=
  ["GET", "DELETE", "PROPPATCH", "HEAD", "OPTIONS", "MKCOL", "PROPFIND", "COPY", "MOVE"]

/-- `ALLOW_HEADERS` (src/constant.rs). -/
def ALLOW_HEADERS : List String :=
  ["Authorization", "Content-Type", "Depth", "Overwrite", "Destination", "Range"]

/-- `EXPOSED_HEADERS` (src/constant.rs). -/
def EXPOSED_HEADERS : List String :=
  ["Content-Length", "Content-Type", "Content-Range", "Dav", "Date", "ETag",
   "Last-Modified", "Location", "Lock-Token", "X-WebDAV-Status"]

/-- The standard base64 alphabet (base64 `general_purpose::STANDARD`). -/
def b64Chars : List Char :=
  "ABCDEFGHIJKLMNOPQRSTUVWXYZabcdefghijklmnopqrstuvwxyz0123456789+/".toList

def b64c (n : Nat) : Char := b64Chars.getD n 'A'

/-- Standard base64 with padding over a byte list
(`general_purpose::STANDARD.encode`). -/
def base64Encode : List Nat → String
  | [] => ""
  | [a] =>
      String.mk [b64c (a / 4), b64c (a % 4 * 16), '=', '=']
  | [a, b] =>
      String.mk [b64c (a / 4), b64c (a % 4 * 16 + b / 16), b64c (b % 16 * 4), '=']
  | a :: b :: c :: rest =>
      String.mk [b64c (a / 4), b64c (a % 4 * 16 + b / 16),
                 b64c (b % 16 * 4 + c / 64), b64c (c % 64)] ++ base64Encode rest

/-- UTF-8 encoding of one character (codepoint to bytes). -/
def utf8Char (c : Char) : List Nat :=
  let n := c.toNat
  if n < 128 then [n]
  else if n < 2048 then [192 + n / 64, 128 + n % 64]
  else if n < 65536 then [224 + n / 4096, 128 + n / 64 % 64, 128 + n % 64]
  else [240 + n / 262144, 128 + n / 4096 % 64, 128 + n / 64 % 64, 128 + n % 64]

/-- UTF-8 bytes of a string, as the Rust `format!`-produced `String` is
encoded before base64. -/
def strBytes (s : String) : List Nat :=
  (s.data.map utf8Char).flatten

/-- The exact accepted `Authorization` header value
(`format!("Basic {}", b64)` in src/lib.rs 19-24). -/
def basicAuthValue (username password : String) : String :=
  "Basic " ++ base64Encode (strBytes (username ++ ":" ++ password))

/-- `DavBuilder` (src/dav.rs 4-13): the fields of one DAV `<response>`
fragment. -/
structure DavBuilder where
  creation_date : String
  get_content_length : Option String
  get_content_type : String
  get_etag : Option String
  get_last_modified : String
  resource_type : String
  href : String
  deriving Repr, DecidableEq

/-- `DavBuilder::new` (src/dav.rs 15-25); `Utc::now()` is the explicit
`now` argument. -/
def DavBuilder.new (now : String) : DavBuilder :=
  { creation_date := now
    get_content_length := none
    get_content_type := "httpd/unix-directory"
    get_etag := none
    get_last_modified := now
    resource_type := "<collection />"
    href := "" }

/-- `DavBuilder::object` (src/dav.rs 27-51): fill the fields from an
optional stored object; absent metadata means a synthetic directory. -/
def DavBuilder.object (b : DavBuilder) (href : String) (obj : Option StoredObject)
    (now : String) : DavBuilder :=
  let uploaded_time := (obj.map (fun o => o.uploaded)).getD now
  { b with
    creation_date := uploaded_time
    href := href
    get_content_length := obj.map (fun o => toString o.value.length)
    get_content_type :=
      ((obj.bind (fun o => o.httpMeta.content_type)).getD "httpd/unix-directory")
    get_etag := obj.map (fun o => o.etag)
    get_last_modified := uploaded_time
    resource_type :=
      (obj.map (fun o => ((o.customMeta.lookup "resource_type").getD ""))).getD
        "<collection />" }

/-- `DavBuilder::build` (src/dav.rs 53-99).  The placeholders are filled
exactly as the source passes them: the `creationdate` element receives
`get_content_type` (a quirk of the original argument list), and
`get_content_type` appears again in `getcontenttype`. -/
def DavBuilder.build (b : DavBuilder) : String :=
  let content_length_str := b.get_content_length.getD ""
  let etag := b.get_etag.getD ""
  "<response>\n        <href>" ++ b.href ++
  "</href>\n        <propstat>\n            <prop>\n            <resourcetype>" ++
  b.resource_type ++
  "</resourcetype>\n            <creationdate>" ++ b.get_content_type ++
  "</creationdate>\n            <getcontentlength>" ++ content_length_str ++
  "</getcontentlength>\n            <getlastmodified>" ++ b.get_last_modified ++
  "</getlastmodified>\n            <getetag>" ++ etag ++
  "</getetag>\n            <supportedlock>\n                    <lockentry>\n                        <lockscope>\n                            <exclusive/>\n                        </lockscope>\n                        <locktype>\n                            <write/>\n                        </locktype>\n                    </lockentry>\n                    <lockentry>\n                        <lockscope>\n                            <shared/>\n                        </lockscope>\n                        <locktype>\n                            <write/>\n                        </locktype>\n                    </lockentry>\n                </supportedlock>\n                <lockdiscovery/>\n            <getcontenttype>" ++
  b.get_content_type ++
  "</getcontenttype>\n            </prop>\n            <status>HTTP/1.1 200 OK</status>\n        </propstat>\n    </response>"

/-- One rendered fragment, as every call site builds it:
`DavBuilder::new().object(&href, obj).build()`. -/
def davFrag (now href : String) (obj : Option StoredObject) : String :=
  ((DavBuilder.new now).object href obj now).build

/-- `get_headers` (src/lib.rs 323-347): the GET response headers derived
from the object's HTTP metadata, in emission order. -/
def get_headers (meta : HttpMetadata) : List (String × String) :=
  [("Content-Type", meta.content_type.getD "application/octet-stream")]
  ++ (match meta.content_disposition with
      | some v => [("Content-Disposition", v)]
      | none => [])
  ++ (match meta.content_encoding with
      | some v => [("Content-Encoding", v)]
      | none => [])
  ++ (match meta.content_language with
      | some v => [("Content-Language", v)]
      | none => [])
  ++ (match meta.cache_control with
      | some v => [("Cache-Control", v)]
      | none => [])
  ++ (match meta.cache_expiry with
      | some v => [("Cache-Expires", toString v)]
      | none => [])

/-- The static page `handle_get` serves for a trailing-slash path
(src/lib.rs 81). -/
def notFoundPage : String :=
  "<!DOCTYPE HTML PUBLIC \"-//IETF//DTD HTML 2.0//EN\"><html><head><title>404 Not Found</title></head><body><h1>Not Found</h1><p>The requested URL was not found on this server.</p></body></html>"

/-- `handle_get` (src/lib.rs 77-94).  `range` is the raw `Range` header;
only its presence is inspected.  The `?`-propagated backend miss
(`ok_or("Object is None")`) is the `Except.error` case. -/
def handle_get (path : String) (range : Option String) (bucket : Bucket) :
    Except String Resp :=
  let key := trimSlashes path
  if strEndsWith path '/' then
    .ok { status := 200, headers := [("Content-Type", "text/html")],
          body := .text notFoundPage }
  else if range.isNone then
    match lookupKey bucket key with
    | none => .error "Object is None"
    | some object =>
        .ok { status := 200, headers := get_headers object.httpMeta,
              body := .bytes object.value }
  else .ok (respError "Method Not allowed" 405)

/-- `handle_head` (src/lib.rs 70-75): delegate to GET, drop the body. -/
def handle_head (path : String) (range : Option String) (bucket : Bucket) :
    Except String Resp :=
  match handle_get path range bucket with
  | .error e => .error e
  | .ok r => .ok { status := r.status, headers := r.headers, body := .empty }

/-- `handle_delete` (src/lib.rs 96-112). -/
def handle_delete (path : String) (bucket : Bucket) : Resp × Bucket :=
  let key := trimSlashes path
  match lookupKey bucket key with
  | some _ => ({ status := 204 }, deleteKey bucket key)
  | none =>
      let files := list_all_files bucket key
      if files.isEmpty then (respError "Not Found" 404, bucket)
      else
        let bucket := files.foldl (fun b f => deleteKey b f.key) bucket
        ({ status := 204 }, deleteKey bucket key)

/-- `handle_mkcol` (src/lib.rs 118-135). -/
def handle_mkcol (path : String) (bucket : Bucket) : Resp × Bucket :=
  let key := trimSlashes path
  if key = "" then (respError "Method Not Found" 405, bucket)
  else
    let flag := key ++ "/"
    match lookupKey bucket flag with
    | some _ => (respError "Conflict" 409, bucket)
    | none => ({ status := 201 }, putObj bucket flag [])

/-- `handle_put` (src/lib.rs 201-210). -/
def handle_put (path : String) (body : List Nat) (bucket : Bucket) : Resp × Bucket :=
  let key := trimSlashes path
  if key = "" then (respError "Method Not Found" 405, bucket)
  else ({ status := 201 }, putObj bucket key body)

/-- The opening of every multistatus document (src/lib.rs 140-142). -/
def multistatusOpen : String :=
  "<?xml version=\"1.0\" encoding=\"utf-8\"?>\n<multistatus xmlns=\"DAV:\">"

/-- The depth-1 child loop of `handle_propfind` (src/lib.rs 174-190):
fold the listed objects, accumulating the seen directory-name list
(seeded with `key`) and the XML. -/
def propfindChildren (now key : String) (objects : List StoredObject)
    (xml0 : String) : List String × String :=
  objects.foldl
    (fun acc object =>
      let o_key := trimLeadSlashes (charDrop object.key (strLen key))
      if ¬ strContainsChar o_key '/' then
        (acc.1, acc.2 ++ davFrag now ("/" ++ object.key) (some object))
      else
        let folder_name := firstSegment o_key '/'
        if ¬ acc.1.contains folder_name then
          (acc.1 ++ [folder_name], acc.2 ++ davFrag now ("/" ++ folder_name) none)
        else acc)
    ([key], xml0)

/-- `handle_propfind` (src/lib.rs 137-199).  `depthHeader` is the raw
`Depth` header. -/
def handle_propfind (now path : String) (depthHeader : Option String)
    (bucket : Bucket) : Resp :=
  let key := trimSlashes path
  let page := multistatusOpen
  let hdrs := [("Content-Type", "text/xml")]
  if ¬ strEndsWith path '/' ∧ key ≠ "" then
    match lookupKey bucket key with
    | some object =>
        { status := 200, headers := hdrs,
          body := .text (page ++ davFrag now ("/" ++ object.key) (some object)
                         ++ "</multistatus>") }
    | none => respError "Not Found" 404
  else
    let href := "/" ++ key
    let xml := davFrag now href none
    let depth := depthHeader.getD "1"
    if depth = "0" then
      { status := 200, headers := hdrs, body := .text (page ++ xml ++ "</multistatus>") }
    else if depth = "1" then
      let objects := list_all_files bucket key
      if objects.isEmpty then respError "Not Found" 404
      else
        let res := propfindChildren now key objects xml
        { status := 200, headers := hdrs,
          body := .text (page ++ res.2 ++ "</multistatus>") }
    else if depth = "infinity" then respError "Not Implemented" 501
    else respError "Forbidden" 403

/-- `handle_options` (src/lib.rs 62-67). -/
def handle_options : Resp :=
  { status := 204,
    headers := [("DAV", "1, 2"), ("Allow", String.intercalate ", " METHODS)] }

/-- `handle_lock` (src/lib.rs 220-247): a canned activelock document
echoing the `Depth` and `Timeout` headers. -/
def handle_lock (depthHeader timeoutHeader : Option String) : Resp :=
  let depth := depthHeader.getD "0"
  let tmo := timeoutHeader.getD "Infinite"
  { status := 200,
    body := .text
      ("<?xml version=\"1.0\" encoding=\"utf-8\"?>\n<D:prop xmlns:D=\"DAV:\">\n  <D:lockdiscovery>\n    <D:activelock>\n      <D:locktype><D:write/></D:locktype>\n      <D:lockscope><D:exclusive/></D:lockscope>\n      <D:depth>" ++
       depth ++
       "</D:depth>\n      <ns0:owner xmlns:ns0=\"DAV:\">\n        <ns0:href>http://www.apple.com/webdav_fs/</ns0:href>\n      </ns0:owner>\n        <D:timeout>" ++
       tmo ++
       "</D:timeout>\n    </D:activelock>\n  </D:lockdiscovery>\n</D:prop>") }

/-- An inbound request, carrying the pieces the handlers read. -/
structure Request where
  method : String
  path : String
  authorization : Option String := none
  origin : Option String := none
  range : Option String := none
  depth : Option String := none
  timeoutHdr : Option String := none
  body : List Nat := []
  deriving Repr, DecidableEq

/-- `dispatch_request` (src/lib.rs 251-306): method to handler.  The
`todo!()` bodies of PROPPATCH/COPY/MOVE are the unrecoverable
`Except.error` case. -/
def dispatch_request (now : String) (req : Request) (bucket : Bucket) :
    Except String (Resp × Bucket) :=
  if req.method = "GET" then
    (handle_get req.path req.range bucket).map (fun r => (r, bucket))
  else if req.method = "DELETE" then .ok (handle_delete req.path bucket)
  else if req.method = "PROPPATCH" then .error "not implemented"
  else if req.method = "PUT" then .ok (handle_put req.path req.body bucket)
  else if req.method = "HEAD" then
    (handle_head req.path req.range bucket).map (fun r => (r, bucket))
  else if req.method = "OPTIONS" then .ok (handle_options, bucket)
  else if req.method = "MKCOL" then .ok (handle_mkcol req.path bucket)
  else if req.method = "PROPFIND" then
    .ok (handle_propfind now req.path req.depth bucket, bucket)
  else if req.method = "COPY" then .error "not implemented"
  else if req.method = "MOVE" then .error "not implemented"
  else if req.method = "LOCK" then .ok (handle_lock req.depth req.timeoutHdr, bucket)
  else if req.method = "UNLOCK" then .ok ({ status := 204 }, bucket)
  else .ok (respError "Method Not allowed" 405, bucket)

/-- The headers `set_cors_headers` (src/lib.rs 308-321) makes `with_cors`
emit: origin (or `*`), the fixed method list, allow/expose lists,
max-age 86400; the credentials flag is false so no credentials header. -/
def set_cors_headers (origin : Option String) : List (String × String) :=
  [("Access-Control-Allow-Origin", origin.getD "*"),
   ("Access-Control-Allow-Methods", String.intercalate ", " METHODS),
   ("Access-Control-Allow-Headers", String.intercalate ", " ALLOW_HEADERS),
   ("Access-Control-Expose-Headers", String.intercalate ", " EXPOSED_HEADERS),
   ("Access-Control-Max-Age", "86400")]

/-- `Response::with_cors`: append the CORS headers to the response. -/
def with_cors (cors : List (String × String)) (r : Resp) : Resp :=
  { r with headers := r.headers ++ cors }

/-- The 401 response of the auth gate (src/lib.rs 30-34):
`Response::error("Unauthorized", 401)` whose headers are replaced by the
single `WWW-Authenticate` header. -/
def unauthorizedResp : Resp :=
  { status := 401, headers := [("WWW-Authenticate", "Basic realm=\"webdav\"")],
    body := .text "Unauthorized" }

/-- `main` (src/lib.rs 13-36): the Basic-auth gate, then dispatch with
CORS decoration. -/
def main_fetch (now username password : String) (req : Request) (bucket : Bucket) :
    Except String (Resp × Bucket) :=
  match req.authorization with
  | some auth =>
      if auth = basicAuthValue username password then
        let origin := req.origin.or (some "*")
        (dispatch_request now req bucket).map
          (fun rb => (with_cors (set_cors_headers origin) rb.1, rb.2))
      else .ok (unauthorizedResp, bucket)
  | none => .ok (unauthorizedResp, bucket)

end Webdav

namespace Webdav

example : base64Encode (strBytes "user:pass") = "dXNlcjpwYXNz" := by decide

example : trimSlashes "/docs/sub/" = "docs/sub" := by decide

/-- Concrete file objects for evaluating the depth-1 listing scenario. -/
def objA : StoredObject := { key := "docs/a.txt", value := [97] }

def objB : StoredObject := { key := "docs/b.txt", value := [98] }

def objC : StoredObject := { key := "docs/sub/c.txt", value := [99] }

/-- A bucket whose listing under `docs` returns exactly
`docs/a.txt`, `docs/b.txt`, `docs/sub/c.txt`. -/
def bucketDocs : Bucket := [objA, objB, objC]

/-- A file object whose backend metadata carries no content type. -/
def untypedFile : StoredObject := { key := "f.bin", value := [0] }

lemma lookupKey_deleteKey_self (b : Bucket) (k : String) :
    lookupKey (deleteKey b k) k = none := by
  rw [lookupKey, List.find?_eq_none]
  intro o ho
  have h := (List.mem_filter.mp ho).2
  simpa [bne_iff_ne] using h

lemma lookupKey_deleteKey_none (b : Bucket) (j k : String)
    (h : lookupKey b k = none) : lookupKey (deleteKey b j) k = none := by
  rw [lookupKey, List.find?_eq_none] at h ⊢
  intro o ho
  exact h o (List.mem_filter.mp ho).1

lemma lookupKey_foldl_deleteKey (fs : List StoredObject) (b : Bucket) (k : String)
    (h : lookupKey b k = none) :
    lookupKey (fs.foldl (fun a f => deleteKey a f.key) b) k = none := by
  induction fs generalizing b with
  | nil => exact h
  | cons f t ih => exact ih _ (lookupKey_deleteKey_none _ _ _ h)

lemma lookupKey_foldl_deleteKey_mem (fs : List StoredObject) (b : Bucket)
    (f : StoredObject) (hf : f ∈ fs) :
    lookupKey (fs.foldl (fun a g => deleteKey a g.key) b) f.key = none := by
  induction fs generalizing b with
  | nil => cases hf
  | cons g t ih =>
      rcases List.mem_cons.mp hf with rfl | hmem
      · exact lookupKey_foldl_deleteKey t _ _ (lookupKey_deleteKey_self _ _)
      · exact ih _ hmem

lemma foldl_deleteKey_covering (fs : List StoredObject) (b : Bucket)
    (h : ∀ e ∈ b, ∃ f ∈ fs, f.key = e.key) :
    fs.foldl (fun a f => deleteKey a f.key) b = [] := by
  induction fs generalizing b with
  | nil =>
      cases b with
      | nil => rfl
      | cons e t => exact absurd (h e (List.mem_cons_self _ _)) (by simp)
  | cons g t ih =>
      apply ih
      intro e he
      have heb : e ∈ b := (List.mem_filter.mp he).1
      have hne : e.key ≠ g.key := by
        have h2 := (List.mem_filter.mp he).2
        simpa [bne_iff_ne] using h2
      rcases h e heb with ⟨f, hf, hfk⟩
      rcases List.mem_cons.mp hf with rfl | hft
      · exact absurd hfk.symm hne
      · exact ⟨f, hft, hfk⟩

lemma lookupKey_putObj_self (b : Bucket) (k : String) (v : List Nat) :
    lookupKey (putObj b k v) k = some (freshObject k v) := by
  rw [putObj, lookupKey, List.find?_append]
  have h1 : List.find? (fun o => o.key == k) (deleteKey b k) = none :=
    lookupKey_deleteKey_self b k
  rw [h1]
  simp [freshObject, List.find?]

end Webdav

namespace Webdav

set_option maxRecDepth 10000

/-- C1: a PROPFIND with Depth 1 on directory `docs`, where the listing under
the prefix returns exactly `docs/a.txt`, `docs/b.txt`, `docs/sub/c.txt`,
produces exactly four response fragments in order — the self-entry, the two
file fragments, and one deduplicated synthetic fragment for the child
directory — but the synthetic child fragment carries href `/sub` (the bare
folder name), not the full resource key prefixed with `/`, i.e. `/docs/sub`,
which the claim and the spec's href invariant require. -/
theorem propfind_depth1_child_dir_href_bug :
    handle_propfind "T" "/docs/" (some "1") bucketDocs =
      { status := 200, headers := [("Content-Type", "text/xml")],
        body := .text (multistatusOpen ++ ((((davFrag "T" "/docs" none
          ++ davFrag "T" "/docs/a.txt" (some objA))
          ++ davFrag "T" "/docs/b.txt" (some objB))
          ++ davFrag "T" "/sub" none)
          ++ "</multistatus>")) } ∧
    ("/sub" : String) ≠ "/docs/sub" :=
  ⟨rfl, by decide⟩

/-- C2 counterexample: a GET on the trailing-slash path `/docs/` carrying a
Range header returns status 200 (the static HTML page), not 405: the
trailing-slash branch of `handle_get` runs before the Range check. -/
theorem get_range_trailing_slash_cex :
    handle_get "/docs/" (some "bytes=0-100") [] =
      .ok { status := 200, headers := [("Content-Type", "text/html")],
            body := .text notFoundPage } ∧ (200 : Nat) ≠ 405 :=
  ⟨rfl, by decide⟩

/-- C2 amended: for every GET on a path that does not end with `/`, the
presence of a Range header — whatever its value — forces status 405,
regardless of key and bucket contents. -/
theorem get_range_405 (path rangeVal : String) (bucket : Bucket)
    (h : strEndsWith path '/' = false) :
    handle_get path (some rangeVal) bucket =
      .ok (respError "Method Not allowed" 405) := by
  simp [handle_get, h]

/-- C2 witness. -/
theorem get_range_405_witness :
    handle_get "/a.txt" (some "bytes=0-") [] =
      .ok (respError "Method Not allowed" 405) :=
  get_range_405 "/a.txt" "bytes=0-" [] (by decide)

/-- C3: a request whose Authorization header is absent or differs from
`Basic base64(username:password)` gets a uniform 401 carrying
`WWW-Authenticate: Basic realm="webdav"`, with the bucket untouched (the gate
precedes any storage access); the single correct value is passed through to
method dispatch (whose response is decorated with the CORS headers). -/
theorem auth_gate_spec (now username password : String) (req : Request)
    (bucket : Bucket) :
    (req.authorization ≠ some (basicAuthValue username password) →
       main_fetch now username password req bucket = .ok (unauthorizedResp, bucket)) ∧
    (req.authorization = some (basicAuthValue username password) →
       main_fetch now username password req bucket =
         (dispatch_request now req bucket).map
           (fun rb => (with_cors (set_cors_headers (req.origin.or (some "*"))) rb.1,
                       rb.2))) := by
  constructor
  · intro h
    cases ha : req.authorization with
    | none => simp [main_fetch, ha]
    | some a =>
        rw [ha] at h
        have hne : ¬ a = basicAuthValue username password :=
          fun he => h (congrArg some he)
        simp [main_fetch, ha, hne]
  · intro h
    simp [main_fetch, h]

/-- A request with a wrong Authorization value. -/
def reqBad : Request := { method := "OPTIONS", path := "/", authorization := some "nope" }

/-- A request with the single accepted Authorization value for `u`/`p`. -/
def reqGood : Request :=
  { method := "OPTIONS", path := "/", authorization := some (basicAuthValue "u" "p") }

/-- C3 witness. -/
theorem auth_gate_spec_witness :
    main_fetch "T" "u" "p" reqBad [] = .ok (unauthorizedResp, []) ∧
    main_fetch "T" "u" "p" reqGood [] =
      (dispatch_request "T" reqGood []).map
        (fun rb => (with_cors (set_cors_headers (reqGood.origin.or (some "*"))) rb.1,
                    rb.2)) :=
  ⟨(auth_gate_spec "T" "u" "p" reqBad []).1 (by decide),
   (auth_gate_spec "T" "u" "p" reqGood []).2 rfl⟩

end Webdav

namespace Webdav

/-- C4: for a PROPFIND treated as a directory request (empty key or
trailing-slash path), the Depth header decides the outcome: absent behaves
exactly as `1`; `0` returns 200 with only the self-entry fragment; `1` over
an empty prefix listing returns 404; `infinity` returns 501; any other value
returns 403. -/
theorem propfind_directory_depth_spec (now path : String) (bucket : Bucket)
    (h : strEndsWith path '/' = true ∨ trimSlashes path = "") :
    (handle_propfind now path none bucket =
       handle_propfind now path (some "1") bucket) ∧
    (handle_propfind now path (some "0") bucket =
       { status := 200, headers := [("Content-Type", "text/xml")],
         body := .text (multistatusOpen
           ++ davFrag now ("/" ++ trimSlashes path) none ++ "</multistatus>") }) ∧
    (list_all_files bucket (trimSlashes path) = [] →
       (handle_propfind now path (some "1") bucket).status = 404) ∧
    ((handle_propfind now path (some "infinity") bucket).status = 501) ∧
    (∀ d, d ≠ "0" → d ≠ "1" → d ≠ "infinity" →
       (handle_propfind now path (some d) bucket).status = 403) := by
  rcases h with h | h
  · refine ⟨by simp [handle_propfind, h], by simp [handle_propfind, h], ?_,
      by simp [handle_propfind, h, respError], ?_⟩
    · intro hl
      simp [handle_propfind, h, hl, respError]
    · intro d h0 h1 hi
      simp [handle_propfind, h, h0, h1, hi, respError]
  · refine ⟨by simp [handle_propfind, h], by simp [handle_propfind, h], ?_,
      by simp [handle_propfind, h, respError], ?_⟩
    · intro hl
      rw [h] at hl
      simp [handle_propfind, h, hl, respError]
    · intro d h0 h1 hi
      simp [handle_propfind, h, h0, h1, hi, respError]

/-- C4 witness. -/
theorem propfind_directory_depth_spec_witness :
    (handle_propfind "T" "/x/" none [] = handle_propfind "T" "/x/" (some "1") []) ∧
    (handle_propfind "T" "/x/" (some "1") []).status = 404 ∧
    (handle_propfind "T" "/x/" (some "infinity") []).status = 501 ∧
    (handle_propfind "T" "/x/" (some "2") []).status = 403 :=
  ⟨(propfind_directory_depth_spec "T" "/x/" [] (Or.inl (by decide))).1,
   (propfind_directory_depth_spec "T" "/x/" [] (Or.inl (by decide))).2.2.1 rfl,
   (propfind_directory_depth_spec "T" "/x/" [] (Or.inl (by decide))).2.2.2.1,
   (propfind_directory_depth_spec "T" "/x/" [] (Or.inl (by decide))).2.2.2.2 "2"
     (by decide) (by decide) (by decide)⟩

/-- C5: a PROPFIND whose normalized key is non-empty and whose raw path does
not end in `/` resolves solely by direct object lookup: a hit yields a
single-entry multistatus containing that object's fragment with status 200; a
miss yields 404 for every Depth header and every bucket, so no directory
listing is ever consulted. -/
theorem propfind_file_path_spec (now path : String) (depthHeader : Option String)
    (bucket : Bucket) (h1 : strEndsWith path '/' = false)
    (h2 : trimSlashes path ≠ "") :
    (∀ o, lookupKey bucket (trimSlashes path) = some o →
       handle_propfind now path depthHeader bucket =
         { status := 200, headers := [("Content-Type", "text/xml")],
           body := .text (multistatusOpen ++ davFrag now ("/" ++ o.key) (some o)
             ++ "</multistatus>") }) ∧
    (lookupKey bucket (trimSlashes path) = none →
       handle_propfind now path depthHeader bucket = respError "Not Found" 404) := by
  constructor
  · intro o ho
    simp [handle_propfind, h1, h2, ho]
  · intro ho
    simp [handle_propfind, h1, h2, ho]

/-- A bucket holding only a child of `a.txt`, so the direct lookup of
`a.txt` misses while the prefix listing under it is non-empty. -/
def bucketOnlyChild : Bucket := [{ key := "a.txt/child", value := [1] }]

/-- C5 witness: the hit case on a one-object bucket, and the miss case on a
bucket whose prefix listing under the key is non-empty, which still gets 404. -/
theorem propfind_file_path_spec_witness :
    handle_propfind "T" "/docs/a.txt" (some "1") bucketDocs =
      { status := 200, headers := [("Content-Type", "text/xml")],
        body := .text (multistatusOpen ++ davFrag "T" "/docs/a.txt" (some objA)
          ++ "</multistatus>") } ∧
    handle_propfind "T" "/a.txt" (some "1") bucketOnlyChild =
      respError "Not Found" 404 :=
  ⟨(propfind_file_path_spec "T" "/docs/a.txt" (some "1") bucketDocs
      (by decide) (by decide)).1 objA rfl,
   (propfind_file_path_spec "T" "/a.txt" (some "1") bucketOnlyChild
      (by decide) (by decide)).2 rfl⟩

end Webdav

namespace Webdav

/-- C6: MKCOL rejects an empty key with 405; when a directory marker already
exists at `key + "/"` it answers 409 without writing; otherwise it stores an
empty placeholder at `key + "/"` and answers 201 — so two successive MKCOLs
on the same non-empty key answer 201 then 409. -/
theorem mkcol_spec (path : String) (bucket : Bucket) :
    (trimSlashes path = "" →
       handle_mkcol path bucket = (respError "Method Not Found" 405, bucket)) ∧
    (trimSlashes path ≠ "" →
       (∀ o, lookupKey bucket (trimSlashes path ++ "/") = some o →
          handle_mkcol path bucket = (respError "Conflict" 409, bucket)) ∧
       (lookupKey bucket (trimSlashes path ++ "/") = none →
          handle_mkcol path bucket =
            ({ status := 201 }, putObj bucket (trimSlashes path ++ "/") []) ∧
          (handle_mkcol path (handle_mkcol path bucket).2).1 =
            respError "Conflict" 409)) := by
  constructor
  · intro h
    simp [handle_mkcol, h]
  · intro h
    constructor
    · intro o ho
      simp [handle_mkcol, h, ho]
    · intro ho
      have h1 : handle_mkcol path bucket =
          ({ status := 201 }, putObj bucket (trimSlashes path ++ "/") []) := by
        simp [handle_mkcol, h, ho]
      refine ⟨h1, ?_⟩
      rw [h1]
      simp [handle_mkcol, h, lookupKey_putObj_self]

/-- C6 witness: two MKCOLs on key `d` starting from the empty bucket. -/
theorem mkcol_spec_witness :
    handle_mkcol "/d" [] = ({ status := 201 }, putObj [] "d/" []) ∧
    (handle_mkcol "/d" (handle_mkcol "/d" []).2).1 = respError "Conflict" 409 :=
  ((mkcol_spec "/d" []).2 (by decide)).2 rfl

/-- C7: a PUT of any body to a non-empty key answers 201, and a following
GET of the same key (no Range header, no interleaving write) returns status
200 with exactly the stored object's content bytes and the headers derived
from the stored object's metadata — whose content type, since PUT attaches
none, surfaces as the `application/octet-stream` default. -/
theorem put_get_roundtrip (path : String) (body : List Nat) (bucket : Bucket)
    (h1 : strEndsWith path '/' = false) (h2 : trimSlashes path ≠ "") :
    (handle_put path body bucket).1.status = 201 ∧
    lookupKey (handle_put path body bucket).2 (trimSlashes path) =
      some (freshObject (trimSlashes path) body) ∧
    handle_get path none (handle_put path body bucket).2 =
      .ok { status := 200,
            headers := get_headers (freshObject (trimSlashes path) body).httpMeta,
            body := .bytes body } ∧
    get_headers (freshObject (trimSlashes path) body).httpMeta =
      [("Content-Type", "application/octet-stream")] := by
  have hput : (handle_put path body bucket).2 =
      putObj bucket (trimSlashes path) body := by
    simp [handle_put, h2]
  refine ⟨by simp [handle_put, h2], ?_, ?_, by simp [get_headers, freshObject]⟩
  · rw [hput]
    exact lookupKey_putObj_self _ _ _
  · rw [hput]
    simp [handle_get, h1, lookupKey_putObj_self, freshObject]

/-- C7 witness. -/
theorem put_get_roundtrip_witness :
    (handle_put "/f" [1, 2] []).1.status = 201 ∧
    lookupKey (handle_put "/f" [1, 2] []).2 (trimSlashes "/f") =
      some (freshObject (trimSlashes "/f") [1, 2]) ∧
    handle_get "/f" none (handle_put "/f" [1, 2] []).2 =
      .ok { status := 200,
            headers := get_headers (freshObject (trimSlashes "/f") [1, 2]).httpMeta,
            body := .bytes [1, 2] } ∧
    get_headers (freshObject (trimSlashes "/f") [1, 2]).httpMeta =
      [("Content-Type", "application/octet-stream")] :=
  put_get_roundtrip "/f" [1, 2] [] (by decide) (by decide)

/-- C8 counterexample: in a PROPFIND DAV fragment, a file object whose
backend metadata carries no content type is given content type
`httpd/unix-directory`, not `application/octet-stream` as claimed: the
builder applies the directory fallback to every missing content type. -/
theorem dav_untyped_file_content_type_cex :
    ((DavBuilder.new "T").object "/f.bin" (some untypedFile) "T").get_content_type
        = "httpd/unix-directory" ∧
    ((DavBuilder.new "T").object "/f.bin" (some untypedFile) "T").get_content_type
        ≠ "application/octet-stream" :=
  ⟨rfl, by decide⟩

/-- C8 amended: in GET response headers an untyped file surfaces content type
`application/octet-stream`; in PROPFIND DAV fragments a synthetic directory
surfaces `httpd/unix-directory`, and a file object with no stored content
type surfaces `httpd/unix-directory` as well (the builder's fallback for any
missing content type). -/
theorem content_type_defaults_spec (now href : String) (meta : HttpMetadata)
    (o : StoredObject) (hm : meta.content_type = none)
    (ho : o.httpMeta.content_type = none) :
    (get_headers meta).head? = some ("Content-Type", "application/octet-stream") ∧
    ((DavBuilder.new now).object href none now).get_content_type =
      "httpd/unix-directory" ∧
    ((DavBuilder.new now).object href (some o) now).get_content_type =
      "httpd/unix-directory" := by
  refine ⟨by simp [get_headers, hm], rfl, ?_⟩
  simp [DavBuilder.object, ho]

/-- C8 witness. -/
theorem content_type_defaults_spec_witness :
    (get_headers ({} : HttpMetadata)).head? =
      some ("Content-Type", "application/octet-stream") ∧
    ((DavBuilder.new "T").object "/d" none "T").get_content_type =
      "httpd/unix-directory" ∧
    ((DavBuilder.new "T").object "/f.bin" (some untypedFile) "T").get_content_type =
      "httpd/unix-directory" :=
  content_type_defaults_spec "T" "/d" {} untypedFile rfl rfl

end Webdav

namespace Webdav

/-- C9: DELETE with a direct object at the key removes exactly that key and
answers 204 (the result equals the single-key removal, so no other object is
touched); with no direct object and an empty prefix listing it answers 404
and leaves the bucket unchanged; otherwise it answers 204 after deleting
every listed object under the prefix and the bare key itself. -/
theorem delete_spec (path : String) (bucket : Bucket) :
    ((lookupKey bucket (trimSlashes path)).isSome = true →
       handle_delete path bucket =
         ({ status := 204 }, deleteKey bucket (trimSlashes path))) ∧
    (lookupKey bucket (trimSlashes path) = none →
       list_all_files bucket (trimSlashes path) = [] →
       handle_delete path bucket = (respError "Not Found" 404, bucket)) ∧
    (lookupKey bucket (trimSlashes path) = none →
       list_all_files bucket (trimSlashes path) ≠ [] →
       (handle_delete path bucket).1 = { status := 204 } ∧
       (∀ f ∈ list_all_files bucket (trimSlashes path),
          lookupKey (handle_delete path bucket).2 f.key = none) ∧
       lookupKey (handle_delete path bucket).2 (trimSlashes path) = none) := by
  refine ⟨?_, ?_, ?_⟩
  · intro h
    rcases Option.isSome_iff_exists.mp h with ⟨o, ho⟩
    simp [handle_delete, ho]
  · intro h hl
    simp [handle_delete, h, hl, respError]
  · intro h hl
    have hres : (handle_delete path bucket).2 =
        deleteKey ((list_all_files bucket (trimSlashes path)).foldl
          (fun b f => deleteKey b f.key) bucket) (trimSlashes path) := by
      simp [handle_delete, h, hl]
    have hst : (handle_delete path bucket).1 = { status := 204 } := by
      simp [handle_delete, h, hl]
    refine ⟨hst, ?_, ?_⟩
    · intro f hf
      rw [hres]
      exact lookupKey_deleteKey_none _ _ _ (lookupKey_foldl_deleteKey_mem _ _ _ hf)
    · rw [hres]
      exact lookupKey_deleteKey_self _ _

/-- A bucket with a leaf object and a same-named child, for the direct-hit
DELETE case. -/
def bucketLeaf : Bucket :=
  [{ key := "leaf", value := [1] }, { key := "leaf/child", value := [2] }]

/-- A bucket with two objects under prefix `d`, for the directory DELETE
case. -/
def bucketDirD : Bucket :=
  [{ key := "d/x", value := [1] }, { key := "d/y", value := [2] }]

/-- C9 witness: direct hit deletes only the leaf (the child survives);
wholly absent key answers 404; prefix case answers 204 with every listed
object gone. -/
theorem delete_spec_witness :
    handle_delete "/leaf" bucketLeaf =
      ({ status := 204 }, [{ key := "leaf/child", value := [2] }]) ∧
    handle_delete "/nope" [] = (respError "Not Found" 404, []) ∧
    (handle_delete "/d" bucketDirD).1 = { status := 204 } ∧
    lookupKey (handle_delete "/d" bucketDirD).2 "d/x" = none :=
  ⟨(delete_spec "/leaf" bucketLeaf).1 rfl,
   (delete_spec "/nope" []).2.1 rfl rfl,
   ((delete_spec "/d" bucketDirD).2.2 rfl (by decide)).1,
   ((delete_spec "/d" bucketDirD).2.2 rfl (by decide)).2.1
     { key := "d/x", value := [1] } (by decide)⟩

/-- C10: DELETE of the root path `/` (normalized key empty) is not rejected
the way PUT and MKCOL reject the empty key (both answer 405): when no object
exists at the empty key, the listing applies no prefix filter and returns
the whole bucket, every object in it is deleted and the answer is 204 with
an empty bucket; only a wholly empty bucket answers 404. -/
theorem delete_root_spec (bucket : Bucket) (h : lookupKey bucket "" = none) :
    trimSlashes "/" = "" ∧
    list_all_files bucket "" = bucket ∧
    (bucket = [] → handle_delete "/" bucket = (respError "Not Found" 404, bucket)) ∧
    (bucket ≠ [] → handle_delete "/" bucket = ({ status := 204 }, [])) ∧
    (∀ body, (handle_put "/" body bucket).1 = respError "Method Not Found" 405) ∧
    (handle_mkcol "/" bucket).1 = respError "Method Not Found" 405 := by
  have ht : trimSlashes "/" = "" := rfl
  refine ⟨rfl, by simp [list_all_files], ?_, ?_, ?_, by simp [handle_mkcol, ht]⟩
  · intro hb
    subst hb
    rfl
  · intro hb
    have hres : handle_delete "/" bucket =
        ({ status := 204 },
         deleteKey (bucket.foldl (fun b f => deleteKey b f.key) bucket) "") := by
      simp [handle_delete, ht, h, list_all_files, hb]
    rw [hres]
    have hcov : bucket.foldl (fun b f => deleteKey b f.key) bucket = [] :=
      foldl_deleteKey_covering bucket bucket (fun e he => ⟨e, he, rfl⟩)
    rw [hcov]
    rfl
  · intro body
    simp [handle_put, ht]

/-- C10 witness. -/
theorem delete_root_spec_witness :
    handle_delete "/" [{ key := "a", value := [1] }] = ({ status := 204 }, []) ∧
    handle_delete "/" ([] : Bucket) = (respError "Not Found" 404, []) ∧
    (handle_put "/" [0] [{ key := "a", value := [1] }]).1 =
      respError "Method Not Found" 405 ∧
    (handle_mkcol "/" [{ key := "a", value := [1] }]).1 =
      respError "Method Not Found" 405 :=
  ⟨(delete_root_spec [{ key := "a", value := [1] }] rfl).2.2.2.1 (by decide),
   (delete_root_spec [] rfl).2.2.1 rfl,
   (delete_root_spec [{ key := "a", value := [1] }] rfl).2.2.2.2.1 [0],
   (delete_root_spec [{ key := "a", value := [1] }] rfl).2.2.2.2.2⟩

end Webdav
